import Mathlib

/-!
Verification development for the kubegems alert-rule compilation and
synchronization engine (pkg/service/handlers/observability/monitor.go)
and the HTTP request signer (pkg/utils/httpsigs/httpsigs.go).

The Go code is shallowly embedded: in-place mutation of an alert rule
becomes a function returning the updated rule, fallible operations return
`Except String`, and remote/stateful collaborators (kubernetes clients,
the relational store, the live Prometheus backend) are passed in as
explicit values.  Definitions follow the Go source line by line; helpers
from repository packages that are outside the examined files are modelled
from the specification and marked as such in their doc comments.
-/

/- ===== generic helpers ===== -/

/-- `true` iff an `Except` value is a success. -/
def exceptIsOk : Except ε α → Bool
  | .ok _ => true
  | .error _ => false

/-- Embedding of Go `strings.Join(l, ", ")`. -/
def joinComma : List String → String
  | [] => ""
  | x :: xs => xs.foldl (fun acc y => acc ++ ", " ++ y) x

/-- Lexicographic comparison on character lists (model of Go's byte-wise
string order used by `sort.Strings`). -/
def lexLe : List Char → List Char → Bool
  | [], _ => true
  | _ :: _, [] => false
  | a :: as, b :: bs => if a = b then lexLe as bs else decide (a < b)

/-- Insert a string into a sorted list. -/
def insertSorted (x : String) : List String → List String
  | [] => [x]
  | y :: ys => if lexLe x.data y.data then x :: y :: ys else y :: insertSorted x ys

/-- Embedding of Go `sort.Strings` (insertion sort; any sort that orders
byte-wise lexicographically is an adequate model). -/
def sortStrings : List String → List String
  | [] => []
  | x :: xs => insertSorted x (sortStrings xs)

/-- Boolean list-prefix test. -/
def isPrefixB [DecidableEq α] : List α → List α → Bool
  | [], _ => true
  | _ :: _, [] => false
  | a :: as, b :: bs => if a = b then isPrefixB as bs else false

/-- Boolean test for `pat` occurring contiguously inside `l`. -/
def infixAt [DecidableEq α] (pat : List α) : List α → Bool
  | [] => pat.isEmpty
  | b :: bs => isPrefixB pat (b :: bs) || infixAt pat bs

/-- Embedding of Go `strings.Contains s pat`. -/
def strContains (s pat : String) : Bool := infixAt pat.data s.data

/- ===== constants from kubegems.io/kubegems/pkg/utils/prometheus (outside
the examined files) ===== -/

/-- Modelled from the spec: the reserved "global" namespace sentinel;
rules in this namespace are not namespace-scoped. -/
def GlobalAlertNamespace : String := "gemcloud-monitoring-system"

/-- Modelled from the spec: label carrying the owning namespace on
evaluation rules and routes. -/
def AlertNamespaceLabel : String := "gems_namespace"

/-- Modelled from the spec: label carrying the rule name on evaluation
rules and routes. -/
def AlertNameLabel : String := "gems_alertname"

/-- Modelled from the spec: the severity label key. -/
def SeverityLabel : String := "severity"

/-- Modelled from the spec: the higher severity of the critical-to-error
inhibition pairing. -/
def SeverityCritical : String := "critical"

/-- Modelled from the spec: the lower severity of the critical-to-error
inhibition pairing. -/
def SeverityError : String := "error"

/-- Modelled from the spec: name of the default "null" catch-all route
receiver. -/
def NullReceiverName : String := "null"

/-- Modelled from the spec: external label identifying the cluster. -/
def AlertClusterKey : String := "cluster"

/-- Modelled from the spec: placeholder token resolved by the evaluation
engine at run time to the breaching value. -/
def ValueAnnotationExpr : String := "\x7b\x7b $value | humanize \x7d\x7d"

/-- The `Monitor` alert type tag. -/
def AlertTypeMonitor : String := "monitor"

/-- The `Logging` alert type tag. -/
def AlertTypeLogging : String := "logging"

/- ===== data model (pkg/service/models, outside the examined files;
field set taken from the uses in monitor.go and the spec data model) ===== -/

/-- Matcher kind of a promql label matcher. -/
inductive MatchType where
  | MatchEqual
  | MatchNotEqual
  | MatchRegexp
  | MatchNotRegexp
deriving Repr, DecidableEq, Inhabited

/-- Render of the matcher operator (standard Prometheus notation, used by
`LabelMatcher.String`). -/
def MatchType.render : MatchType → String
  | .MatchEqual => "="
  | .MatchNotEqual => "!="
  | .MatchRegexp => "=~"
  | .MatchNotRegexp => "!~"

/-- A promql label matcher (pkg/utils/prometheus/promql).  The Go field
`Type` is spelled `Typ` here because `Type` is a Lean keyword. -/
structure LabelMatcher where
  Typ : MatchType := .MatchEqual
  Name : String := ""
  Value : String := ""
deriving Repr, DecidableEq, Inhabited

/-- Modelled from the spec: `LabelMatcher.String`, the serialized text of
a label matcher. -/
def LabelMatcher.render (m : LabelMatcher) : String :=
  m.Name ++ m.Typ.render ++ "\"" ++ m.Value ++ "\""

/-- A resolved promql template from the template catalog. -/
structure PromqlTpl where
  Expr : String := ""
  Labels : List String := []
  RuleShowName : String := ""
deriving Repr, DecidableEq, Inhabited

/-- Catalog entry keyed by (scope, resource, rule). -/
structure PromqlTplEntry where
  Scope : String := ""
  Resource : String := ""
  Rule : String := ""
  Tpl : PromqlTpl := {}
deriving Repr, DecidableEq, Inhabited

/-- The metric-query generator variant. -/
structure PromqlGenerator where
  Scope : String := ""
  Resource : String := ""
  Rule : String := ""
  Unit : String := ""
  LabelMatchers : List LabelMatcher := []
  Tpl : PromqlTpl := {}
deriving Repr, DecidableEq, Inhabited

/-- The log-query generator variant. -/
structure LogqlGenerator where
  Duration : String := ""
  Match : String := ""
  LabelMatchers : List LabelMatcher := []
deriving Repr, DecidableEq, Inhabited

/-- A severity level with its comparison operator and threshold. -/
structure AlertLevel where
  CompareOp : String := ""
  CompareValue : String := ""
  Severity : String := ""
deriving Repr, DecidableEq, Inhabited

/-- A notification channel record. -/
structure AlertChannel where
  ID : Nat := 0
  Name : String := ""
deriving Repr, DecidableEq, Inhabited

/-- Join entity binding a rule to a channel with a repeat interval. -/
structure AlertReceiver where
  AlertChannelID : Nat := 0
  Interval : String := ""
  AlertChannel : Option AlertChannel := none
deriving Repr, DecidableEq, Inhabited

/-- The persisted alert rule.  The ephemeral `RealTimeAlerts` attachment
is omitted: no examined claim depends on the alert instances themselves,
only on `State`. -/
structure AlertRule where
  Cluster : String := ""
  Namespace : String := ""
  Name : String := ""
  AlertType : String := ""
  Expr : String := ""
  Message : String := ""
  For : String := ""
  AlertLevels : List AlertLevel := []
  InhibitLabels : List String := []
  Receivers : List AlertReceiver := []
  State : String := ""
  PromqlGenerator : Option PromqlGenerator := none
  LogqlGenerator : Option LogqlGenerator := none
deriving Repr, DecidableEq, Inhabited

/- ===== expression compiler (setExpr, monitor.go lines 442-517) ===== -/

/-- Structured query AST of pkg/utils/prometheus/promql. -/
structure PromQuery where
  base : String := ""
  matchers : List LabelMatcher := []
deriving Repr, DecidableEq, Inhabited

/-- Modelled from the spec: `promql.New` parses the template's base
expression into a structured query AST.  Parsing itself is done by the
external Prometheus parser; it is modelled as always succeeding (no claim
exercises an unparsable template), keeping the base text verbatim. -/
def promqlNew (e : String) : Except String PromQuery :=
  .ok { base := e, matchers := [] }

/-- Modelled from the spec: re-serialization of the AST with the appended
label matchers. -/
def PromQuery.render (q : PromQuery) : String :=
  q.base ++ "\x7b" ++ joinComma (q.matchers.map LabelMatcher.render) ++ "\x7d"

/-- The namespace equality matcher appended for namespace-scoped rules
(monitor.go lines 451-455). -/
def nsMatcher (ns : String) : LabelMatcher :=
  { Typ := .MatchEqual, Name := "namespace", Value := ns }

/-- The serialized namespace equality constraint (`namespace="ns"`). -/
def nsEqStr (ns : String) : String := "namespace=\"" ++ ns ++ "\""

/-- The serialized namespace regex constraint (`namespace=~"ns"`). -/
def nsReStr (ns : String) : String := "namespace=~\"" ++ ns ++ "\""

/-- The loop of monitor.go lines 458-465: walk the matcher list with a
seen-set of label names, rejecting a duplicated label name, appending each
matcher to the query. -/
def addLabelMatchersChecked (q : PromQuery) (seen : List String) :
    List LabelMatcher → Except String PromQuery
  | [] => .ok q
  | m :: ms =>
    if m.Name ∈ seen then
      .error ("duplicated label matcher: " ++ m.render)
    else
      addLabelMatchersChecked { q with matchers := q.matchers ++ [m] } (m.Name :: seen) ms

/-- Modelled from the spec: `model.ParseDuration` of the Prometheus
common library, restricted to single-component durations (digits followed
by a unit), returning milliseconds. -/
def parseDuration (s : String) : Option Nat :=
  let digits := s.data.takeWhile Char.isDigit
  let rest := s.data.dropWhile Char.isDigit
  if digits.isEmpty then none
  else
    let n := digits.foldl (fun a c => a * 10 + (c.toNat - 48)) 0
    match rest with
    | ['m', 's'] => some n
    | ['s'] => some (n * 1000)
    | ['m'] => some (n * 60000)
    | ['h'] => some (n * 3600000)
    | ['d'] => some (n * 86400000)
    | ['w'] => some (n * 604800000)
    | ['y'] => some (n * 31536000000)
    | _ => none

/-- Modelled from the spec: the match pattern must compile as a regular
expression in the external Go regexp engine; modelled as total since no
claim exercises a non-compiling pattern. -/
def regexpCompiles (_pattern : String) : Bool := true

/-- The windowed count expression built for the log-query variant
(monitor.go lines 484-495): rendered matchers, sorted, with a namespace
equality matcher appended. -/
def logqlExpr (g : LogqlGenerator) (ns : String) : String :=
  "sum(count_over_time(\x7b" ++
    joinComma (sortStrings (g.LabelMatchers.map LabelMatcher.render) ++ [nsEqStr ns]) ++
    "\x7d |~ `" ++ g.Match ++ "` [" ++ g.Duration ++ "]))without(fluentd_thread)"

/-- Modelled from the spec: `prometheus.SplitQueryExpr`'s `hasOp` result,
true when the expression contains a raw comparison operator
(`<|<=|==|!=|>|>=`); `<=` and `>=` are subsumed by `<` and `>` as
substrings. -/
def hasCompareOp (s : String) : Bool :=
  strContains s "==" || strContains s "!=" || strContains s "<" || strContains s ">"

/-- The per-variant derivation of monitor.go lines 443-497. -/
def setExprBranch (r : AlertRule) : Except String AlertRule :=
  if r.AlertType = AlertTypeMonitor then
    match r.PromqlGenerator with
    | none => .ok r
    | some g =>
      match promqlNew g.Tpl.Expr with
      | .error e => .error e
      | .ok q0 =>
        let g1 := if r.Namespace ≠ GlobalAlertNamespace ∧ r.Namespace ≠ "" then
            { g with LabelMatchers := g.LabelMatchers ++ [nsMatcher r.Namespace] }
          else g
        match addLabelMatchersChecked q0 [] g1.LabelMatchers with
        | .error e => .error e
        | .ok q => .ok { r with PromqlGenerator := some g1, Expr := q.render }
  else if r.AlertType = AlertTypeLogging then
    match r.LogqlGenerator with
    | none => .ok r
    | some g =>
      match parseDuration g.Duration with
      | none => .error ("duration " ++ g.Duration ++ " not valid")
      | some ms =>
        if 600000 < ms then .error "日志模板时长不能超过10m"
        else if regexpCompiles g.Match = false then .error ("match " ++ g.Match ++ " not valid")
        else if g.LabelMatchers.isEmpty then .error "labelMatchers can't be null"
        else .ok { r with Expr := logqlExpr g r.Namespace }
  else .ok r

/-- The common post-conditions of monitor.go lines 498-516.  Note:
lines 498-500 and 501-505 of the source construct `errors.New("empty
expr")` and `errors.Wrapf(err, "parse expr: ...")` but discard the values
without returning them, so neither the empty-expression check nor the
syntax-parse check has any effect; the embedding mirrors that by omitting
both. -/
def setExprPost (r : AlertRule) : Except String AlertRule :=
  if hasCompareOp r.Expr then
    .error "查询表达式不能包含比较运算符(<|<=|==|!=|>|>=)"
  else if r.Namespace ≠ "" ∧ r.Namespace ≠ GlobalAlertNamespace then
    if strContains r.Expr (nsReStr r.Namespace) || strContains r.Expr (nsEqStr r.Namespace) then
      .ok r
    else
      .error ("query expr " ++ r.Expr ++ " must contains namespace " ++ r.Namespace ++
        ", eg: \x7bnamespace=\"" ++ r.Namespace ++ "\"\x7d")
  else .ok r

/-- Embedding of `setExpr` (monitor.go lines 442-517). -/
def setExpr (r : AlertRule) : Except String AlertRule :=
  match setExprBranch r with
  | .error e => .error e
  | .ok r1 => setExprPost r1

/- ===== message templater (setMessage, monitor.go lines 410-440) ===== -/

/-- Modelled from the spec: `prometheus.ParseUnit` resolves a unit name
against a unit-name catalog, yielding the display suffix, and fails on an
unrecognized unit. -/
def parseUnit (u : String) : Except String String :=
  if u = "" then .ok ""
  else if u = "short" then .ok ""
  else if u = "percent-%" then .ok "%"
  else if u = "bytes-B" then .ok "B"
  else if u = "seconds-s" then .ok "s"
  else .error ("unit " ++ u ++ " not valid")

/-- The `[label:{{ $labels.label }}] ` placeholder run of the monitor
message (monitor.go lines 416-418). -/
def labelPlaceholders (labels : List String) : String :=
  String.join (labels.map fun l => "[" ++ l ++ ":\x7b\x7b $labels." ++ l ++ " \x7d\x7d] ")

/-- The message built for a logging rule with a log generator
(monitor.go lines 430-434). -/
def logqlMessage (r : AlertRule) (g : LogqlGenerator) : String :=
  r.Name ++ ": [集群:\x7b\x7b $labels." ++ AlertClusterKey ++ " \x7d\x7d] [namespace: \x7b\x7b $labels.namespace \x7d\x7d] " ++
    String.join (g.LabelMatchers.map fun m => "[" ++ m.Name ++ ":\x7b\x7b $labels." ++ m.Name ++ " \x7d\x7d] ") ++
    "日志中过去 " ++ g.Duration ++ " 出现字符串 [" ++ g.Match ++ "] 次数触发告警, 当前值: " ++ ValueAnnotationExpr

/-- Embedding of `setMessage` (monitor.go lines 410-440).  Only the
Monitor-with-generator branch is guarded by `Message == ""`; the other
three branches overwrite the message unconditionally. -/
def setMessage (r : AlertRule) : Except String AlertRule :=
  if r.AlertType = AlertTypeMonitor then
    match r.PromqlGenerator with
    | some g =>
      if r.Message = "" then
        match parseUnit g.Unit with
        | .error e => .error e
        | .ok unitShow =>
          .ok { r with Message :=
            r.Name ++ ": [cluster:\x7b\x7b $externalLabels." ++ AlertClusterKey ++ " \x7d\x7d] " ++
            labelPlaceholders g.Tpl.Labels ++
            g.Tpl.RuleShowName ++ " trigger alert, value: " ++ ValueAnnotationExpr ++ unitShow }
      else .ok r
    | none =>
      .ok { r with Message :=
        r.Name ++ ": [cluster:\x7b\x7b $externalLabels." ++ AlertClusterKey ++ " \x7d\x7d] trigger alert, value: " ++ ValueAnnotationExpr }
  else if r.AlertType = AlertTypeLogging then
    match r.LogqlGenerator with
    | some g => .ok { r with Message := logqlMessage r g }
    | none =>
      .ok { r with Message :=
        r.Name ++ ": [cluster:\x7b\x7b $labels." ++ AlertClusterKey ++ " \x7d\x7d] trigger alert, value: " ++ ValueAnnotationExpr }
  else .ok r

/- ===== receiver resolver (setReceivers, monitor.go lines 519-543) ===== -/

/-- Modelled from the spec: the identity of the process-wide default
channel (`models.DefaultChannel.ID`), configured at startup. -/
def DefaultChannelID : Nat := 1

/-- The duplicate-channel scan of monitor.go lines 523-529. -/
def dupChannelCheck (seen : List Nat) : List AlertReceiver → Except String Unit
  | [] => .ok ()
  | rec :: recs =>
    if rec.AlertChannelID ∈ seen then
      .error ("告警渠道: " ++ toString rec.AlertChannelID ++ "重复")
    else dupChannelCheck (rec.AlertChannelID :: seen) recs

/-- The channel lookup `db.First(v.AlertChannel)` against the channel
store, modelled as an association list of channel records. -/
def findChannel (db : List AlertChannel) (id : Nat) : Option AlertChannel :=
  db.find? (fun c => c.ID == id)

/-- The resolve loop of monitor.go lines 536-541: attach each receiver's
channel record, failing on a dangling reference. -/
def resolveChannels (db : List AlertChannel) :
    List AlertReceiver → Except String (List AlertReceiver)
  | [] => .ok []
  | rec :: recs =>
    match findChannel db rec.AlertChannelID with
    | none => .error ("record not found: alert channel " ++ toString rec.AlertChannelID)
    | some ch =>
      match resolveChannels db recs with
      | .error e => .error e
      | .ok rest => .ok ({ rec with AlertChannel := some ch } :: rest)

/-- Embedding of `setReceivers` (monitor.go lines 519-543). -/
def setReceivers (r : AlertRule) (db : List AlertChannel) : Except String AlertRule :=
  if r.Receivers.isEmpty then .error "告警接收器不能为空"
  else
    match dupChannelCheck [] r.Receivers with
    | .error e => .error e
    | .ok _ =>
      let withDefault :=
        if (r.Receivers.map (·.AlertChannelID)).contains DefaultChannelID then r.Receivers
        else r.Receivers ++
          [{ AlertChannelID := DefaultChannelID,
             Interval := (r.Receivers.headD default).Interval }]
      match resolveChannels db withDefault with
      | .error e => .error e
      | .ok recs => .ok { r with Receivers := recs }

/- ===== level/inhibition validator (checkAlertLevels, monitor.go lines 545-561) ===== -/

/-- The duplicate-severity scan of monitor.go lines 549-555. -/
def dupSeverityCheck (seen : List String) : List AlertLevel → Except String Unit
  | [] => .ok ()
  | l :: ls =>
    if l.Severity ∈ seen then .error "有重复的告警级别"
    else dupSeverityCheck (l.Severity :: seen) ls

/-- Embedding of `checkAlertLevels` (monitor.go lines 545-561). -/
def checkAlertLevels (r : AlertRule) : Except String Unit :=
  if r.AlertLevels.isEmpty then .error "告警级别不能为空"
  else
    match dupSeverityCheck [] r.AlertLevels with
    | .error e => .error e
    | .ok _ =>
      if 1 < r.AlertLevels.length ∧ r.InhibitLabels.isEmpty then
        .error "有多个告警级别时，告警抑制标签不能为空!"
      else .ok ()

/- ===== inbound validation pipeline (getAlertRuleReq, monitor.go lines 563-597) ===== -/

/-- Modelled from the spec: template-catalog lookup by
(scope, resource, rule-name), failing when absent
(`FindPromqlTpl` of the database layer). -/
def FindPromqlTpl (catalog : List PromqlTplEntry) (scope resource rule : String) :
    Except String PromqlTpl :=
  match catalog.find? (fun e => e.Scope == scope && e.Resource == resource && e.Rule == rule) with
  | some e => .ok e.Tpl
  | none => .error ("template " ++ scope ++ "/" ++ resource ++ "/" ++ rule ++ " not found")

/-- Embedding of `getAlertRuleReq` (monitor.go lines 563-597), minus the
HTTP binding: the decoded request body, the cluster/namespace path
parameters, whether the route is the monitor one, the template catalog and
the channel store are explicit arguments. -/
def getAlertRuleReq (req : AlertRule) (cluster ns : String) (isMonitorPath : Bool)
    (catalog : List PromqlTplEntry) (db : List AlertChannel) : Except String AlertRule := do
  let r := { req with
    Cluster := cluster, Namespace := ns,
    AlertType := if isMonitorPath then AlertTypeMonitor else AlertTypeLogging }
  let r ← match r.PromqlGenerator with
    | none => pure r
    | some g => do
      let tpl ← FindPromqlTpl catalog g.Scope g.Resource g.Rule
      pure { r with PromqlGenerator := some { g with Tpl := tpl } }
  let r ← setMessage r
  let r ← setExpr r
  let r ← setReceivers r db
  let _ ← checkAlertLevels r
  pure r

/- ===== live-state reconciler (ListMonitorAlertRule lines 308-364,
GetMonitorAlertRule lines 378-408) ===== -/

/-- A live snapshot from the alerting backend: evaluation-rule states
keyed by (namespace, rule name), as returned by
`cli.Extend().GetPromeAlertRules` and indexed by
`prometheus.RealTimeAlertKey` (modelled as the pair itself). -/
def lookupLive (live : List ((String × String) × String)) (ns name : String) : Option String :=
  (live.find? (fun e => e.1.1 == ns && e.1.2 == name)).map (·.2)

/-- The per-rule refresh of monitor.go lines 323-328 and 393-401: take the
live state when a matching entry exists, otherwise `"inactive"`. -/
def refreshState (live : List ((String × String) × String)) (r : AlertRule) : AlertRule :=
  { r with State := (lookupLive live r.Namespace r.Name).getD "inactive" }

/-- The selection used both by the refresh query and the listing query
(`alert_type = monitor and cluster = ? and namespace = ?`). -/
def matchesMonitor (cluster ns : String) (r : AlertRule) : Bool :=
  r.AlertType == AlertTypeMonitor && r.Cluster == cluster && r.Namespace == ns

/-- Embedding of `ListMonitorAlertRule` (monitor.go lines 308-364).  The
store is a list of rules; the result is the store after the read (every
matching rule's refreshed state is written back via
`db.Model(v).Update("state", ...)`) together with the returned listing.
Free-text search, paging and the state filter belong to the HTTP layer
and are omitted; the listing is the matching rules. -/
def ListMonitorAlertRule (db : List AlertRule) (live : List ((String × String) × String))
    (cluster ns : String) : List AlertRule × List AlertRule :=
  let db1 := db.map fun r => if matchesMonitor cluster ns r then refreshState live r else r
  (db1, db1.filter (matchesMonitor cluster ns))

/-- Embedding of `GetMonitorAlertRule` (monitor.go lines 378-408).  The
rule is fetched by (cluster, namespace, name), its state refreshed from
the live snapshot in the returned object only; the store is returned
unchanged because the source has no corresponding update. -/
def GetMonitorAlertRule (db : List AlertRule) (live : List ((String × String) × String))
    (cluster ns name : String) : List AlertRule × Option AlertRule :=
  match db.find? (fun r => r.Cluster == cluster && r.Namespace == ns && r.Name == name) with
  | none => (db, none)
  | some r => (db, some (refreshState live r))

/- ===== routing/inhibition resource (syncAlertmanagerConfig,
monitor.go lines 681-767) ===== -/

/-- An alertmanager label matcher (v1alpha1.Matcher). -/
structure Matcher where
  Name : String := ""
  Value : String := ""
  Regex : Bool := false
deriving Repr, DecidableEq, Inhabited

/-- An alertmanager inhibition rule (v1alpha1.InhibitRule). -/
structure InhibitRule where
  SourceMatch : List Matcher := []
  TargetMatch : List Matcher := []
  Equal : List String := []
deriving Repr, DecidableEq, Inhabited

/-- A child route of the routing resource (v1alpha1.Route, marshalled to
JSON in the source). -/
structure Route where
  Receiver : String := ""
  RepeatInterval : String := ""
  Continue : Bool := false
  Matchers : List Matcher := []
deriving Repr, DecidableEq, Inhabited

/-- The top-level route of the routing resource. -/
structure RouteTop where
  Receiver : String := ""
  GroupBy : List String := []
  GroupWait : String := ""
  GroupInterval : String := ""
  Routes : List Route := []
deriving Repr, DecidableEq, Inhabited

/-- The routing/inhibition resource spec (v1alpha1.AlertmanagerConfigSpec);
receivers are represented by their names. -/
structure AlertmanagerConfigSpec where
  Route : RouteTop := {}
  Receivers : List String := []
  InhibitRules : List InhibitRule := []
deriving Repr, DecidableEq, Inhabited

/-- Modelled from the spec: `AlertChannel.ReceiverName()`, the receiver
name derived from a channel record. -/
def ReceiverName (ch : AlertChannel) : String := ch.Name ++ "-" ++ toString ch.ID

/-- The single inhibition rule appended when the rule has inhibition
labels (monitor.go lines 729-763). -/
def inhibitRuleOf (r : AlertRule) : InhibitRule :=
  { SourceMatch := [
      { Name := AlertNamespaceLabel, Value := r.Namespace },
      { Name := AlertNameLabel, Value := r.Name },
      { Name := SeverityLabel, Value := SeverityCritical, Regex := false }],
    TargetMatch := [
      { Name := AlertNamespaceLabel, Value := r.Namespace },
      { Name := AlertNameLabel, Value := r.Name },
      { Name := SeverityLabel, Value := SeverityError, Regex := false }],
    Equal := r.InhibitLabels ++ [AlertNamespaceLabel, AlertNameLabel] }

/-- The mutate closure of `syncAlertmanagerConfig` (monitor.go lines
693-765): the spec the idempotent create-or-update converges the remote
resource to.  It is a pure function of the rule. -/
def syncAlertmanagerConfigSpec (r : AlertRule) : AlertmanagerConfigSpec :=
  { Route := {
      Receiver := NullReceiverName,
      GroupBy := [AlertNamespaceLabel, AlertNameLabel],
      GroupWait := "30s",
      GroupInterval := "30s",
      Routes := r.Receivers.map fun rec =>
        { Receiver := ReceiverName (rec.AlertChannel.getD default),
          RepeatInterval := rec.Interval,
          Continue := true,
          Matchers := [
            { Name := AlertNamespaceLabel, Value := r.Namespace },
            { Name := AlertNameLabel, Value := r.Name }] } },
    Receivers := NullReceiverName :: r.Receivers.map (fun rec => ReceiverName (rec.AlertChannel.getD default)),
    InhibitRules := if r.InhibitLabels.isEmpty then [] else [inhibitRuleOf r] }

/- ===== multi-resource synchronizer (syncMonitorAlertRule lines 769-785,
deleteMonitorAlertRule lines 787-810) ===== -/

/-- The three remote synchronization stages, in source order. -/
inductive SyncStage where
  | secret
  | prometheusRule
  | alertmanagerConfig
deriving Repr, DecidableEq

/-- Embedding of `syncMonitorAlertRule` (monitor.go lines 769-785).  The
outcome of obtaining the cluster client and of each remote
create-or-update stage is an explicit argument (they are network calls at
the interface boundary); the returned list records which stages were
invoked, in order.  An error from a stage is wrapped with the stage name
exactly as `errors.Wrap` renders it. -/
def syncMonitorAlertRule (cli secretRes pruleRes amcfgRes : Except String Unit) :
    Except String Unit × List SyncStage :=
  match cli with
  | .error e => (.error e, [])
  | .ok _ =>
    match secretRes with
    | .error e => (.error ("sync secret failed: " ++ e), [.secret])
    | .ok _ =>
      match pruleRes with
      | .error e => (.error ("sync prometheusrule failed: " ++ e), [.secret, .prometheusRule])
      | .ok _ =>
        match amcfgRes with
        | .error e =>
          (.error ("sync alertmanagerconfig failed: " ++ e),
           [.secret, .prometheusRule, .alertmanagerConfig])
        | .ok _ => (.ok (), [.secret, .prometheusRule, .alertmanagerConfig])

/-- Outcome of a remote delete call: success, a "not found" rejection, or
any other failure. -/
inductive DeleteRes where
  | deleted
  | notFound
  | failed (msg : String)
deriving Repr, DecidableEq

/-- Embedding of `deleteMonitorAlertRule` (monitor.go lines 787-810).
The outcomes of the client lookup, of the two remote deletions
(evaluation rule, then routing configuration) and of
`deleteSilenceIfExist` (defined outside the examined files; modelled from
the spec as the removal of any associated silence record, succeeding when
none exists) are explicit arguments.  A "not found" deletion outcome is
ignored; any other failure is returned. -/
def deleteMonitorAlertRule (cli : Except String Unit) (delPrule delAmcfg : DeleteRes)
    (delSilence : Except String Unit) : Except String Unit :=
  match cli with
  | .error e => .error e
  | .ok _ =>
    match delPrule with
    | .failed m => .error m
    | _ =>
      match delAmcfg with
      | .failed m => .error m
      | _ => delSilence

/- ===== http request signer (pkg/utils/httpsigs/httpsigs.go) ===== -/

/-- Decimal digit character. -/
def digitChar : Nat → Char
  | 0 => '0' | 1 => '1' | 2 => '2' | 3 => '3' | 4 => '4'
  | 5 => '5' | 6 => '6' | 7 => '7' | 8 => '8' | 9 => '9'
  | _ => '?'

/-- Numeric value of a digit character. -/
def charVal (c : Char) : Nat := c.toNat - 48

/-- Decimal rendering of a natural number (model of the Go standard
library's integer formatting, an external collaborator). -/
def natStr (n : Nat) : String :=
  if n = 0 then "0" else String.mk (((Nat.digits 10 n).reverse).map digitChar)

/-- Decimal parsing of a natural number. -/
def parseNat (s : String) : Option Nat :=
  if s.data ≠ [] ∧ s.data.all Char.isDigit then
    some (Nat.ofDigits 10 ((s.data.map charVal).reverse))
  else none

/-- Model of Go `strconv.FormatInt(i, 10)`. -/
def formatInt (i : Int) : String :=
  if i < 0 then "-" ++ natStr i.natAbs else natStr i.natAbs

/-- Model of Go `strconv.ParseInt(s, 10, 64)`: an optional leading minus
sign followed by decimal digits. -/
def parseInt (s : String) : Option Int :=
  if isPrefixB ['-'] s.data then
    (parseNat (String.mk (s.data.drop 1))).map (fun n => -(Int.ofNat n))
  else (parseNat s).map Int.ofNat

/-- An HTTP request, reduced to the parts the signer reads: the URL path
and the headers. -/
structure Request where
  Path : String := ""
  Headers : List (String × String) := []
deriving Repr, DecidableEq, Inhabited

/-- `req.Header.Get`: first value for the key, `""` when absent. -/
def headerGet (hs : List (String × String)) (k : String) : String :=
  (((hs.find? (fun p => p.1 == k)).map (·.2))).getD ""

/-- `req.Header.Set`: replace any existing values for the key. -/
def headerSet (hs : List (String × String)) (k v : String) : List (String × String) :=
  (k, v) :: hs.filter (fun p => p.1 != k)

/-- Model of Go `strings.TrimPrefix`. -/
def trimLeading (s pre : String) : String :=
  if isPrefixB pre.data s.data then String.mk (s.data.drop pre.data.length) else s

/-- The signer (httpsigs.go lines 34-38); `Duration` is the tolerance in
seconds. -/
structure Signer where
  Token : String := ""
  Duration : Int := 0
  WhiteList : List String := []
deriving Repr, DecidableEq, Inhabited

/-- Embedding of `Signer.IsWhiteList` (httpsigs.go lines 59-66). -/
def Signer.IsWhiteList (s : Signer) (path : String) : Bool :=
  s.WhiteList.contains path

/-- Embedding of `Signer.Sign` (httpsigs.go lines 68-75).  `hash` stands
for the hex-rendered MD5 digest (external crypto library: the embedding is
parametric in any hash function) and `now` for `time.Now().Unix()`. -/
def Signer.Sign (hash : String → String) (s : Signer) (req : Request) (pre : String)
    (now : Int) : Request :=
  let path := trimLeading req.Path pre
  let timeStr := formatInt now
  let sign := hash (path ++ timeStr ++ s.Token)
  { req with Headers := headerSet (headerSet req.Headers "sign-token" sign) "sign-time" timeStr }

/-- Embedding of `Signer.Validate` (httpsigs.go lines 77-100). -/
def Signer.Validate (hash : String → String) (s : Signer) (req : Request)
    (now : Int) : Except String Unit :=
  if s.IsWhiteList req.Path then .ok ()
  else
    let timeStr := headerGet req.Headers "sign-time"
    let token := headerGet req.Headers "sign-token"
    let path := req.Path
    match parseInt timeStr with
    | none => .error ("parse sign-time " ++ timeStr ++ " failed")
    | some timestamp =>
      let after := now + s.Duration
      let before := now - s.Duration
      if after < timestamp ∨ timestamp < before then
        .error ("httpsigs time out, origin: " ++ timeStr)
      else
        let signOut := hash (path ++ timeStr ++ s.Token)
        if signOut ≠ token then
          .error ("invalid http signature, path: " ++ path)
        else .ok ()

/- ===== theorems ===== -/

/-- A monitor rule without a generator, carrying an empty caller-supplied
expression, submitted through the full validation pipeline. -/
def emptyExprRule : AlertRule :=
  { Expr := "",
    Receivers := [{ AlertChannelID := 1, Interval := "1h" }],
    AlertLevels := [{ CompareOp := ">", CompareValue := "80", Severity := "critical" }] }

/-- C1: the claim (and spec) say an empty or unparsable expression is
rejected by `setExpr` before persistence, but monitor.go lines 498-500 and
501-505 build `errors.New("empty expr")` / `errors.Wrapf(err, "parse
expr: ...")` and drop the values without returning them, so the checks
have no effect: the full validation pipeline accepts a monitor rule whose
expression is empty, and `setExpr` alone accepts an empty expression for
an unscoped monitor rule. -/
theorem setExpr_accepts_empty_expr :
    (getAlertRuleReq emptyExprRule "c" GlobalAlertNamespace true []
        [{ ID := 1, Name := "default" }]).map AlertRule.Expr = .ok "" ∧
    (setExpr { AlertType := AlertTypeMonitor, Expr := "", Namespace := "" }).map
        AlertRule.Expr = .ok "" := by
  exact ⟨rfl, rfl⟩

/-- C6: synchronization always runs credential (secret), then
evaluation-rule (prometheusrule), then routing/inhibition
(alertmanagerconfig); the first failing stage stops the run, later stages
are not invoked, and the error is wrapped with the failing stage's name. -/
theorem syncMonitorAlertRule_stage_order :
    (∀ e p a, syncMonitorAlertRule (.ok ()) (.error e) p a =
      (.error ("sync secret failed: " ++ e), [.secret])) ∧
    (∀ e a, syncMonitorAlertRule (.ok ()) (.ok ()) (.error e) a =
      (.error ("sync prometheusrule failed: " ++ e), [.secret, .prometheusRule])) ∧
    (∀ e, syncMonitorAlertRule (.ok ()) (.ok ()) (.ok ()) (.error e) =
      (.error ("sync alertmanagerconfig failed: " ++ e),
        [.secret, .prometheusRule, .alertmanagerConfig])) ∧
    syncMonitorAlertRule (.ok ()) (.ok ()) (.ok ()) (.ok ()) =
      (.ok (), [.secret, .prometheusRule, .alertmanagerConfig]) := by
  exact ⟨fun e p a => rfl, fun e a => rfl, fun e => rfl, rfl⟩

/-- C8: deleting a rule whose evaluation-rule and routing resources are
already absent succeeds ("not found" is swallowed for both), and any other
failure of either deletion is propagated. -/
theorem deleteMonitorAlertRule_idempotent :
    deleteMonitorAlertRule (.ok ()) .notFound .notFound (.ok ()) = .ok () ∧
    (∀ s, deleteMonitorAlertRule (.ok ()) .notFound .notFound s = s) ∧
    (∀ m a s, deleteMonitorAlertRule (.ok ()) (.failed m) a s = .error m) ∧
    (∀ m s, deleteMonitorAlertRule (.ok ()) .deleted (.failed m) s = .error m) ∧
    (∀ m s, deleteMonitorAlertRule (.ok ()) .notFound (.failed m) s = .error m) := by
  exact ⟨rfl, fun s => rfl, fun m a s => rfl, fun m s => rfl, fun m s => rfl⟩

/-- A logging rule whose caller already set a message. -/
def presetMsgRule : AlertRule :=
  { Name := "lg", AlertType := AlertTypeLogging, Message := "preset",
    LogqlGenerator := some { Duration := "5m", Match := "err",
                             LabelMatchers := [{ Name := "job", Value := "x" }] } }

/-- C3 counterexample: a Logging-type rule with a log generator and a
non-empty caller-set message has its message overwritten by `setMessage`
(only the Monitor-with-generator branch checks `Message == ""`). -/
theorem setMessage_overwrites_preset_logging_cx :
    presetMsgRule.Message = "preset" ∧
    (setMessage presetMsgRule).map AlertRule.Message =
      .ok (logqlMessage presetMsgRule
        { Duration := "5m", Match := "err", LabelMatchers := [{ Name := "job", Value := "x" }] }) ∧
    logqlMessage presetMsgRule
        { Duration := "5m", Match := "err", LabelMatchers := [{ Name := "job", Value := "x" }] }
      ≠ "preset" := by
  refine ⟨rfl, rfl, by decide⟩

/-- C3 amended: a non-empty caller-set message is preserved only for
Monitor-type rules with a promql generator; a Logging-type rule with a log
generator has its message recomputed unconditionally. -/
theorem setMessage_preserves_nonempty_monitor :
    (∀ r g, r.AlertType = AlertTypeMonitor → r.PromqlGenerator = some g →
      r.Message ≠ "" → setMessage r = .ok r) ∧
    (∀ r g, r.AlertType = AlertTypeLogging → r.LogqlGenerator = some g →
      setMessage r = .ok { r with Message := logqlMessage r g }) := by
  constructor
  · intro r g hT hG hM
    unfold setMessage
    rw [if_pos hT]
    split
    · rw [if_neg hM]
    · next heq => rw [hG] at heq; cases heq
  · intro r g hT hG
    unfold setMessage
    rw [if_neg (by rw [hT]; decide), if_pos hT]
    split
    · next g1 heq =>
      rw [hG] at heq
      injection heq with h1
      rw [h1]
    · next heq => rw [hG] at heq; cases heq

/-- A monitor rule with a promql generator and a caller-set message. -/
def presetMonitorRule : AlertRule :=
  { Name := "m", AlertType := AlertTypeMonitor, Message := "keep",
    PromqlGenerator := some { Unit := "", Tpl := { Expr := "up" } } }

/-- C3 witness: the preservation branch at a concrete monitor rule. -/
theorem setMessage_preserves_nonempty_monitor_witness :
    setMessage presetMonitorRule = .ok presetMonitorRule :=
  setMessage_preserves_nonempty_monitor.1 presetMonitorRule _ rfl rfl (by decide)

/-- A rule with a single severity level but a non-empty inhibition label
set (which `checkAlertLevels` does not forbid). -/
def singleLevelInhibitRule : AlertRule :=
  { Namespace := "team-a", Name := "high-cpu",
    AlertLevels := [{ CompareOp := ">", CompareValue := "80", Severity := "critical" }],
    InhibitLabels := ["pod"] }

/-- C5 counterexample: the synchronized routing resource of a rule with a
single severity level carries an inhibition rule whenever the inhibition
label set is non-empty, falsifying "for a rule with a single severity
level, no inhibition rules are present"; the source keys the inhibition on
`len(InhibitLabels) > 0`, never on the number of levels. -/
theorem syncAlertmanagerConfig_single_level_cx :
    singleLevelInhibitRule.AlertLevels.length = 1 ∧
    (syncAlertmanagerConfigSpec singleLevelInhibitRule).InhibitRules.length = 1 := by
  exact ⟨rfl, rfl⟩

/-- C5 amended: the routing resource carries an inhibition rule iff the
rule's inhibition label set is non-empty, and then exactly one
(critical-source / error-target, equal-set = configured inhibition labels
plus namespace and rule-name labels); since rules with more than one
severity level must have inhibition labels to pass `checkAlertLevels`,
such rules always get that one inhibition rule. -/
theorem syncAlertmanagerConfig_inhibition :
    (∀ r : AlertRule, (syncAlertmanagerConfigSpec r).InhibitRules = [] ↔ r.InhibitLabels = []) ∧
    (∀ r : AlertRule, r.InhibitLabels ≠ [] →
      (syncAlertmanagerConfigSpec r).InhibitRules = [inhibitRuleOf r] ∧
      (inhibitRuleOf r).Equal = r.InhibitLabels ++ [AlertNamespaceLabel, AlertNameLabel] ∧
      { Name := SeverityLabel, Value := SeverityCritical, Regex := false }
        ∈ (inhibitRuleOf r).SourceMatch ∧
      { Name := SeverityLabel, Value := SeverityError, Regex := false }
        ∈ (inhibitRuleOf r).TargetMatch) ∧
    (∀ r : AlertRule, exceptIsOk (checkAlertLevels r) = true → 1 < r.AlertLevels.length →
      (syncAlertmanagerConfigSpec r).InhibitRules.length = 1) := by
  refine ⟨fun r => ?_, fun r h => ?_, fun r hOk hLen => ?_⟩
  · simp [syncAlertmanagerConfigSpec, List.isEmpty_iff]
  · refine ⟨?_, rfl, ?_, ?_⟩
    · simp [syncAlertmanagerConfigSpec, List.isEmpty_iff, h]
    · simp [inhibitRuleOf]
    · simp [inhibitRuleOf]
  · have hInh : ¬ r.InhibitLabels.isEmpty = true := by
      intro hEmpty
      unfold checkAlertLevels at hOk
      rcases hIsE : r.AlertLevels.isEmpty with _ | _
      · rw [if_neg (by simp [hIsE])] at hOk
        rcases hDup : dupSeverityCheck [] r.AlertLevels with e | u
        · rw [hDup] at hOk; cases hOk
        · rw [hDup] at hOk
          rw [if_pos ⟨hLen, hEmpty⟩] at hOk
          cases hOk
      · rw [if_pos (by simp [hIsE])] at hOk; cases hOk
    simp [syncAlertmanagerConfigSpec, hInh]

/-- A store holding one monitor rule whose persisted state says "firing"
while the live backend has no matching entry. -/
def staleDb : List AlertRule :=
  [{ Cluster := "c", Namespace := "ns", Name := "r",
     AlertType := AlertTypeMonitor, State := "firing" }]

/-- C4 counterexample: a detail read refreshes the state only in the
returned object ("inactive", since the live snapshot is empty) while the
store keeps the stale "firing" state — the read persists nothing, contrary
to the claim that every detail read writes the refreshed state back. -/
theorem getMonitorAlertRule_no_persist_cx :
    (GetMonitorAlertRule staleDb [] "c" "ns" "r").2.map AlertRule.State = some "inactive" ∧
    (GetMonitorAlertRule staleDb [] "c" "ns" "r").1.map AlertRule.State = ["firing"] := by
  exact ⟨rfl, rfl⟩

/-- C4 amended: on a listing read every matching rule's state is refreshed
from the live snapshot and persisted back to the store; on a detail read
the returned rule's state is refreshed but the store is left unchanged. -/
theorem monitorAlertRule_read_state_refresh :
    (∀ db live cluster ns r1, r1 ∈ (ListMonitorAlertRule db live cluster ns).1 →
      matchesMonitor cluster ns r1 = true →
      r1.State = (lookupLive live r1.Namespace r1.Name).getD "inactive") ∧
    (∀ db live cluster ns name, (GetMonitorAlertRule db live cluster ns name).1 = db) ∧
    (∀ db live cluster ns name r1,
      (GetMonitorAlertRule db live cluster ns name).2 = some r1 →
      r1.State = (lookupLive live r1.Namespace r1.Name).getD "inactive") := by
  refine ⟨fun db live cluster ns r1 hMem hMatch => ?_, fun db live cluster ns name => ?_,
    fun db live cluster ns name r1 hGet => ?_⟩
  · simp only [ListMonitorAlertRule, List.mem_map] at hMem
    obtain ⟨r0, _, hEq⟩ := hMem
    by_cases hm : matchesMonitor cluster ns r0 = true
    · rw [if_pos hm] at hEq
      rw [← hEq]
      simp [refreshState]
    · rw [if_neg hm] at hEq
      rw [← hEq] at hMatch
      exact absurd hMatch hm
  · unfold GetMonitorAlertRule
    rcases hFind : db.find? (fun r =>
        r.Cluster == cluster && r.Namespace == ns && r.Name == name) with _ | r0 <;>
      rw [hFind]
  · unfold GetMonitorAlertRule at hGet
    rcases hFind : db.find? (fun r =>
        r.Cluster == cluster && r.Namespace == ns && r.Name == name) with _ | r0
    · rw [hFind] at hGet; cases hGet
    · rw [hFind] at hGet
      injection hGet with h2
      rw [← h2]
      simp [refreshState]

/-- C4 witness input: the refreshed form of the stale rule. -/
def staleRefreshed : AlertRule :=
  { Cluster := "c", Namespace := "ns", Name := "r",
    AlertType := AlertTypeMonitor, State := "inactive" }

/-- C4 witness: the listing conjunct at the concrete stale store. -/
theorem monitorAlertRule_read_state_refresh_witness :
    staleRefreshed.State =
      (lookupLive [] staleRefreshed.Namespace staleRefreshed.Name).getD "inactive" :=
  monitorAlertRule_read_state_refresh.1 staleDb [] "c" "ns" staleRefreshed
    (by decide) (by decide)

/-- A successful `setExprPost` returns its input unchanged, and certifies
the namespace constraint when the rule is namespace-scoped. -/
theorem setExprPost_ok {r r1 : AlertRule} (h : setExprPost r = .ok r1) :
    r1 = r ∧ (r.Namespace ≠ "" ∧ r.Namespace ≠ GlobalAlertNamespace →
      (strContains r.Expr (nsReStr r.Namespace) ||
       strContains r.Expr (nsEqStr r.Namespace)) = true) := by
  unfold setExprPost at h
  by_cases h1 : hasCompareOp r.Expr = true
  · rw [if_pos h1] at h; cases h
  · rw [if_neg h1] at h
    by_cases h2 : r.Namespace ≠ "" ∧ r.Namespace ≠ GlobalAlertNamespace
    · rw [if_pos h2] at h
      by_cases h3 : (strContains r.Expr (nsReStr r.Namespace) ||
          strContains r.Expr (nsEqStr r.Namespace)) = true
      · rw [if_pos h3] at h
        injection h with h4
        exact ⟨h4.symm, fun _ => h3⟩
      · rw [if_neg h3] at h; cases h
    · rw [if_neg h2] at h
      injection h with h4
      exact ⟨h4.symm, fun hc => absurd hc h2⟩

/-- The duplicate scan of the matcher loop fails whenever the appended
matcher's label name already occurs among the earlier matchers or the
seen-set. -/
theorem addLabelMatchersChecked_append_dup (m0 : LabelMatcher) :
    ∀ (ms : List LabelMatcher) (q : PromQuery) (seen : List String),
      (m0.Name ∈ ms.map LabelMatcher.Name ∨ m0.Name ∈ seen) →
      exceptIsOk (addLabelMatchersChecked q seen (ms ++ [m0])) = false := by
  intro ms
  induction ms with
  | nil =>
    intro q seen hmem
    rcases hmem with h | h
    · simp at h
    · simp only [List.nil_append]
      unfold addLabelMatchersChecked
      rw [if_pos h]
      rfl
  | cons m rest ih =>
    intro q seen hmem
    simp only [List.cons_append]
    unfold addLabelMatchersChecked
    by_cases hseen : m.Name ∈ seen
    · rw [if_pos hseen]; rfl
    · rw [if_neg hseen]
      apply ih
      rcases hmem with h | h
      · simp only [List.map_cons, List.mem_cons] at h
        rcases h with h | h
        · right; rw [h]; exact List.mem_cons_self _ _
        · left; exact h
      · right; exact List.mem_cons_of_mem _ h

/-- Computation of the monitor branch for a namespace-scoped rule with a
generator: the namespace matcher is appended to the generator in place and
the matcher list is walked with the duplicate scan. -/
theorem setExprBranch_monitor_eq (r : AlertRule) (g : PromqlGenerator)
    (hT : r.AlertType = AlertTypeMonitor) (hG : r.PromqlGenerator = some g)
    (hNs : r.Namespace ≠ GlobalAlertNamespace ∧ r.Namespace ≠ "") :
    setExprBranch r =
      match addLabelMatchersChecked { base := g.Tpl.Expr, matchers := [] } []
          (g.LabelMatchers ++ [nsMatcher r.Namespace]) with
      | .error e => .error e
      | .ok q => .ok { r with
          PromqlGenerator := some { g with
            LabelMatchers := g.LabelMatchers ++ [nsMatcher r.Namespace] },
          Expr := q.render } := by
  unfold setExprBranch
  rw [if_pos hT, hG]
  dsimp only [promqlNew]
  rw [if_pos hNs]

/-- C2 amended: (i) whenever `setExpr` succeeds on a namespace-scoped
rule, the produced expression contains a namespace equality or regex
constraint (enforced by the final check); (ii) `setExpr` is not
re-runnable in place: a successful run on a namespace-scoped metric rule
with a generator appends the namespace matcher to the generator itself, so
a second run on the returned rule fails with a duplicate-matcher error
instead of yielding the same expression again. -/
theorem setExpr_namespace_constraint :
    (∀ r r1 : AlertRule, setExpr r = .ok r1 →
      r1.Namespace ≠ "" → r1.Namespace ≠ GlobalAlertNamespace →
      (strContains r1.Expr (nsReStr r1.Namespace) ||
       strContains r1.Expr (nsEqStr r1.Namespace)) = true) ∧
    (∀ (r r1 : AlertRule) (g : PromqlGenerator),
      r.AlertType = AlertTypeMonitor → r.PromqlGenerator = some g →
      r.Namespace ≠ GlobalAlertNamespace → r.Namespace ≠ "" →
      setExpr r = .ok r1 →
      exceptIsOk (setExpr r1) = false) := by
  constructor
  · intro r r1 h hNs1 hNs2
    unfold setExpr at h
    rcases hB : setExprBranch r with e | r2
    · rw [hB] at h; cases h
    · rw [hB] at h
      obtain ⟨hEq, hC⟩ := setExprPost_ok h
      subst hEq
      exact hC ⟨hNs1, hNs2⟩
  · intro r r1 g hT hG hNs1 hNs2 h
    unfold setExpr at h
    rcases hB : setExprBranch r with e | r2
    · rw [hB] at h; cases h
    · rw [hB] at h
      obtain ⟨hEq, -⟩ := setExprPost_ok h
      subst hEq
      rw [setExprBranch_monitor_eq r g hT hG ⟨hNs1, hNs2⟩] at hB
      rcases hAdd : addLabelMatchersChecked { base := g.Tpl.Expr, matchers := [] } []
          (g.LabelMatchers ++ [nsMatcher r.Namespace]) with e | q
      · rw [hAdd] at hB; cases hB
      · rw [hAdd] at hB
        injection hB with hB2
        subst hB2
        have hDup : exceptIsOk (addLabelMatchersChecked
            { base := g.Tpl.Expr, matchers := [] } []
            ((g.LabelMatchers ++ [nsMatcher r.Namespace]) ++ [nsMatcher r.Namespace]))
            = false := by
          apply addLabelMatchersChecked_append_dup
          left
          simp [nsMatcher]
        unfold setExpr
        rw [setExprBranch_monitor_eq
          ({ r with
              PromqlGenerator := some { g with
                LabelMatchers := g.LabelMatchers ++ [nsMatcher r.Namespace] },
              Expr := q.render })
          ({ g with LabelMatchers := g.LabelMatchers ++ [nsMatcher r.Namespace] })
          hT rfl ⟨hNs1, hNs2⟩]
        dsimp only
        rcases hAdd2 : addLabelMatchersChecked { base := g.Tpl.Expr, matchers := [] } []
            (g.LabelMatchers ++ [nsMatcher r.Namespace] ++ [nsMatcher r.Namespace])
            with e2 | q2
        · rfl
        · rw [hAdd2] at hDup; cases hDup

/-- A namespace-scoped metric rule with a generator, as the claim
quantifies over. -/
def nsScopedRule : AlertRule :=
  { Namespace := "team-a", Name := "high-cpu", AlertType := AlertTypeMonitor,
    PromqlGenerator := some { Tpl := { Expr := "up" }, LabelMatchers := [] } }

/-- C2 counterexample: the first `setExpr` run succeeds and produces an
expression carrying the namespace constraint, but the second run on the
same (mutated) rule does not yield the same expression — it fails with the
duplicate-matcher error, because the first run appended the namespace
matcher to the generator in place. -/
theorem setExpr_rerun_fails_cx :
    (setExpr nsScopedRule).map AlertRule.Expr = .ok "up\x7bnamespace=\"team-a\"\x7d" ∧
    exceptIsOk ((setExpr nsScopedRule).bind setExpr) = false := by
  exact ⟨rfl, rfl⟩

/-- The rule produced by the successful first `setExpr` run on
`nsScopedRule`. -/
def nsScopedRuleCompiled : AlertRule :=
  { Namespace := "team-a", Name := "high-cpu", AlertType := AlertTypeMonitor,
    Expr := "up\x7bnamespace=\"team-a\"\x7d",
    PromqlGenerator := some { Tpl := { Expr := "up" },
                              LabelMatchers := [nsMatcher "team-a"] } }

/-- C2 witness: both conjuncts at the concrete scoped rule. -/
theorem setExpr_namespace_constraint_witness :
    (strContains nsScopedRuleCompiled.Expr (nsReStr nsScopedRuleCompiled.Namespace) ||
     strContains nsScopedRuleCompiled.Expr (nsEqStr nsScopedRuleCompiled.Namespace)) = true ∧
    exceptIsOk (setExpr nsScopedRuleCompiled) = false :=
  ⟨setExpr_namespace_constraint.1 nsScopedRule nsScopedRuleCompiled rfl
      (by decide) (by decide),
   setExpr_namespace_constraint.2 nsScopedRule nsScopedRuleCompiled
      { Tpl := { Expr := "up" }, LabelMatchers := [] } rfl rfl
      (by decide) (by decide) rfl⟩

/-- The duplicate-channel scan fails when some channel ID in the list is
already in the seen-set. -/
theorem dupChannelCheck_fails_of_seen :
    ∀ (recs : List AlertReceiver) (seen : List Nat) (x : Nat),
      x ∈ seen → x ∈ recs.map AlertReceiver.AlertChannelID →
      exceptIsOk (dupChannelCheck seen recs) = false := by
  intro recs
  induction recs with
  | nil => intro seen x _ hx; simp at hx
  | cons rec rest ih =>
    intro seen x hseen hx
    unfold dupChannelCheck
    by_cases hs : rec.AlertChannelID ∈ seen
    · rw [if_pos hs]; rfl
    · rw [if_neg hs]
      simp only [List.map_cons, List.mem_cons] at hx
      rcases hx with hx | hx
      · exact absurd (hx ▸ hseen) hs
      · exact ih _ x (List.mem_cons_of_mem _ hseen) hx

/-- The duplicate-channel scan fails on a duplicated channel ID. -/
theorem dupChannelCheck_fails_of_dup :
    ∀ (recs : List AlertReceiver) (seen : List Nat),
      ¬ (recs.map AlertReceiver.AlertChannelID).Nodup →
      exceptIsOk (dupChannelCheck seen recs) = false := by
  intro recs
  induction recs with
  | nil => intro seen h; exact absurd List.nodup_nil h
  | cons rec rest ih =>
    intro seen h
    unfold dupChannelCheck
    by_cases hs : rec.AlertChannelID ∈ seen
    · rw [if_pos hs]; rfl
    · rw [if_neg hs]
      simp only [List.map_cons, List.nodup_cons] at h
      rw [not_and_or] at h
      rcases h with h | h
      · push_neg at h
        exact dupChannelCheck_fails_of_seen rest _ rec.AlertChannelID
          (List.mem_cons_self _ _) h
      · exact ih _ h

/-- The duplicate-channel scan succeeds when the channel IDs are distinct
and disjoint from the seen-set. -/
theorem dupChannelCheck_ok_of_nodup :
    ∀ (recs : List AlertReceiver) (seen : List Nat),
      (recs.map AlertReceiver.AlertChannelID).Nodup →
      (∀ i ∈ recs.map AlertReceiver.AlertChannelID, i ∉ seen) →
      dupChannelCheck seen recs = .ok () := by
  intro recs
  induction recs with
  | nil => intro seen _ _; rfl
  | cons rec rest ih =>
    intro seen hNodup hDisj
    unfold dupChannelCheck
    rw [if_neg (hDisj rec.AlertChannelID (by simp))]
    simp only [List.map_cons, List.nodup_cons] at hNodup
    apply ih _ hNodup.2
    intro i hi
    simp only [List.mem_cons, not_or]
    exact ⟨fun hEq => hNodup.1 (hEq ▸ hi), hDisj i (List.mem_cons_of_mem _ hi)⟩

/-- The resolve loop succeeds when every referenced channel resolves, and
it preserves the channel-ID and interval sequences. -/
theorem resolveChannels_ok_of_found :
    ∀ (recs : List AlertReceiver) (db : List AlertChannel),
      (∀ rec ∈ recs, (findChannel db rec.AlertChannelID).isSome = true) →
      ∃ recs1, resolveChannels db recs = .ok recs1 ∧
        recs1.map AlertReceiver.AlertChannelID = recs.map AlertReceiver.AlertChannelID ∧
        recs1.map AlertReceiver.Interval = recs.map AlertReceiver.Interval := by
  intro recs
  induction recs with
  | nil => intro db _; exact ⟨[], rfl, rfl, rfl⟩
  | cons rec rest ih =>
    intro db hFound
    obtain ⟨ch, hch⟩ := Option.isSome_iff_exists.mp (hFound rec (by simp))
    obtain ⟨rest1, hRest, hIds, hInts⟩ := ih db (fun x hx => hFound x (List.mem_cons_of_mem _ hx))
    refine ⟨{ rec with AlertChannel := some ch } :: rest1, ?_, ?_, ?_⟩
    · unfold resolveChannels
      rw [hch, hRest]
    · simp [hIds]
    · simp [hInts]

/-- A rule whose single receiver references a channel absent from the
channel store, with the default channel omitted. -/
def danglingReceiverRule : AlertRule :=
  { Receivers := [{ AlertChannelID := 5, Interval := "30m" }] }

/-- C7 counterexample: a rule with a non-empty, duplicate-free receiver
list omitting the default channel still fails resolution when the store
has no record for a referenced channel (`ChannelNotFound`), falsifying the
claim that such a list always resolves successfully. -/
theorem setReceivers_dangling_cx :
    danglingReceiverRule.Receivers ≠ [] ∧
    (danglingReceiverRule.Receivers.map AlertReceiver.AlertChannelID).Nodup ∧
    DefaultChannelID ∉ danglingReceiverRule.Receivers.map AlertReceiver.AlertChannelID ∧
    exceptIsOk (setReceivers danglingReceiverRule []) = false := by
  refine ⟨by decide, by decide, by decide, rfl⟩

/-- C7 amended: an empty receiver list always fails, a duplicated channel
ID always fails, and when additionally every referenced channel and the
default channel resolve in the store, a duplicate-free list omitting the
default channel resolves to the original receivers plus exactly one
default-channel entry appended at the end, carrying the first receiver's
repeat interval. -/
theorem setReceivers_appends_default :
    (∀ (r : AlertRule) (db : List AlertChannel), r.Receivers = [] →
      exceptIsOk (setReceivers r db) = false) ∧
    (∀ (r : AlertRule) (db : List AlertChannel),
      ¬ (r.Receivers.map AlertReceiver.AlertChannelID).Nodup →
      exceptIsOk (setReceivers r db) = false) ∧
    (∀ (r : AlertRule) (db : List AlertChannel), r.Receivers ≠ [] →
      (r.Receivers.map AlertReceiver.AlertChannelID).Nodup →
      DefaultChannelID ∉ r.Receivers.map AlertReceiver.AlertChannelID →
      (∀ rec ∈ r.Receivers, (findChannel db rec.AlertChannelID).isSome = true) →
      (findChannel db DefaultChannelID).isSome = true →
      ∃ r1, setReceivers r db = .ok r1 ∧
        r1.Receivers.map AlertReceiver.AlertChannelID =
          r.Receivers.map AlertReceiver.AlertChannelID ++ [DefaultChannelID] ∧
        (r1.Receivers.map AlertReceiver.AlertChannelID).count DefaultChannelID = 1 ∧
        (r1.Receivers.map AlertReceiver.Interval).getLast? =
          (r.Receivers.map AlertReceiver.Interval).head?) := by
  refine ⟨fun r db hEmpty => ?_, fun r db hDup => ?_,
    fun r db hNe hNodup hNoDef hFound hDefFound => ?_⟩
  · unfold setReceivers
    rw [if_pos (by simp [hEmpty])]
    rfl
  · unfold setReceivers
    by_cases hEmpty : r.Receivers.isEmpty = true
    · rw [if_pos hEmpty]; rfl
    · rw [if_neg hEmpty]
      rcases hScan : dupChannelCheck [] r.Receivers with e | u
      · rfl
      · have := dupChannelCheck_fails_of_dup r.Receivers [] hDup
        rw [hScan] at this
        cases this
  · unfold setReceivers
    rw [if_neg (by simp [List.isEmpty_iff, hNe])]
    rw [dupChannelCheck_ok_of_nodup r.Receivers [] hNodup (fun i _ => List.not_mem_nil i)]
    have hContains : (r.Receivers.map (·.AlertChannelID)).contains DefaultChannelID = false := by
      simpa using hNoDef
    rw [if_neg (by simp [hContains]; simpa using hNoDef)]
    obtain ⟨rec0, rest0, hCons⟩ := List.exists_cons_of_ne_nil hNe
    have hAll : ∀ rec ∈ r.Receivers ++
        [{ AlertChannelID := DefaultChannelID,
           Interval := (r.Receivers.headD default).Interval : AlertReceiver }],
        (findChannel db rec.AlertChannelID).isSome = true := by
      intro rec hrec
      rcases List.mem_append.mp hrec with hm | hm
      · exact hFound rec hm
      · simp only [List.mem_singleton] at hm
        rw [hm]
        exact hDefFound
    obtain ⟨recs1, hRes, hIds, hInts⟩ := resolveChannels_ok_of_found _ db hAll
    dsimp only
    rw [hRes]
    refine ⟨{ r with Receivers := recs1 }, rfl, ?_, ?_, ?_⟩
    · simpa using hIds
    · rw [show ({ r with Receivers := recs1 } : AlertRule).Receivers = recs1 from rfl, hIds]
      rw [List.map_append, List.count_append]
      rw [List.count_eq_zero_of_not_mem (by simpa using hNoDef)]
      simp
    · rw [show ({ r with Receivers := recs1 } : AlertRule).Receivers = recs1 from rfl, hInts]
      rw [List.map_append, List.getLast?_append]
      rw [hCons]
      simp

/-- A channel store holding the referenced channel and the default one. -/
def stockedChannelDb : List AlertChannel :=
  [{ ID := 5, Name := "mail" }, { ID := 1, Name := "default" }]

/-- C7 witness: the resolution conjunct at a concrete rule and store. -/
theorem setReceivers_appends_default_witness :
    ∃ r1, setReceivers danglingReceiverRule stockedChannelDb = .ok r1 ∧
      r1.Receivers.map AlertReceiver.AlertChannelID = [5] ++ [DefaultChannelID] := by
  obtain ⟨r1, h1, h2, -, -⟩ := setReceivers_appends_default.2.2 danglingReceiverRule
    stockedChannelDb (by decide) (by decide) (by decide) (by decide) (by decide)
  exact ⟨r1, h1, h2⟩

/- ===== infix machinery for the logql namespace constraint ===== -/

/-- A list is a Boolean prefix of itself followed by anything. -/
theorem isPrefixB_self_append [DecidableEq α] :
    ∀ (p t : List α), isPrefixB p (p ++ t) = true := by
  intro p
  induction p with
  | nil => intro t; rfl
  | cons a as ih =>
    intro t
    rw [List.cons_append]
    unfold isPrefixB
    rw [if_pos rfl]
    exact ih t

/-- The empty pattern occurs everywhere. -/
theorem infixAt_nil [DecidableEq α] : ∀ (l : List α), infixAt ([] : List α) l = true := by
  intro l
  induction l with
  | nil => rfl
  | cons b bs ih =>
    unfold infixAt
    rw [ih]
    simp [isPrefixB]

/-- The pattern occurs at the very front. -/
theorem infixAt_self_append [DecidableEq α] (p t : List α) :
    infixAt p (p ++ t) = true := by
  cases p with
  | nil => exact infixAt_nil t
  | cons a as =>
    have h := isPrefixB_self_append (a :: as) t
    rw [List.cons_append] at h ⊢
    unfold infixAt
    rw [h]
    rfl

/-- Occurrence is stable under extending the text on the left. -/
theorem infixAt_append_left [DecidableEq α] :
    ∀ (s : List α) (pat t : List α), infixAt pat t = true → infixAt pat (s ++ t) = true := by
  intro s
  induction s with
  | nil => intro pat t h; exact h
  | cons b bs ih =>
    intro pat t h
    rw [List.cons_append]
    unfold infixAt
    rw [ih pat t h]
    simp

/-- The last element of a non-trivial comma-join is a data-level suffix. -/
theorem joinComma_concat (l : List String) (n : String) :
    ∃ A : List Char, (joinComma (l ++ [n])).data = A ++ n.data := by
  cases l with
  | nil => exact ⟨[], rfl⟩
  | cons x xs =>
    refine ⟨((xs.foldl (fun acc y => acc ++ ", " ++ y) x) ++ ", ").data, ?_⟩
    show ((xs ++ [n]).foldl (fun acc y => acc ++ ", " ++ y) x).data = _
    rw [List.foldl_append]
    simp [String.data_append]

/-- The built log expression always contains the namespace equality
constraint appended by monitor.go line 489, in exactly the serialized form
the final check of lines 510-515 looks for. -/
theorem logqlExpr_contains_ns (g : LogqlGenerator) (ns : String) :
    strContains (logqlExpr g ns) (nsEqStr ns) = true := by
  unfold logqlExpr strContains
  obtain ⟨A, hA⟩ := joinComma_concat
    (sortStrings (g.LabelMatchers.map LabelMatcher.render)) (nsEqStr ns)
  simp only [String.data_append, hA, List.append_assoc]
  exact infixAt_append_left _ _ _ (infixAt_append_left _ _ _ (infixAt_self_append _ _))

/-- C9 amended: for a Logging rule with a log generator, a lookback
duration parsing above 10 minutes always fails `setExpr` ("11m" parses to
660000 ms > 600000 ms); a duration of at most 10 minutes succeeds given a
compiling pattern and a non-empty matcher set, provided additionally that
the built expression carries no raw comparison operator (the final
operator check of monitor.go lines 506-509 also applies to log rules, so a
pattern or matcher containing one of `< > == !=` still fails). -/
theorem setExpr_log_duration_bound :
    (∀ (r : AlertRule) (g : LogqlGenerator) (ms : Nat),
      r.AlertType = AlertTypeLogging → r.LogqlGenerator = some g →
      parseDuration g.Duration = some ms → 600000 < ms →
      exceptIsOk (setExpr r) = false) ∧
    (parseDuration "11m" = some 660000 ∧ 600000 < 660000 ∧
      parseDuration "10m" = some 600000) ∧
    (∀ (r : AlertRule) (g : LogqlGenerator) (ms : Nat),
      r.AlertType = AlertTypeLogging → r.LogqlGenerator = some g →
      parseDuration g.Duration = some ms → ms ≤ 600000 →
      regexpCompiles g.Match = true → g.LabelMatchers ≠ [] →
      hasCompareOp (logqlExpr g r.Namespace) = false →
      setExpr r = .ok { r with Expr := logqlExpr g r.Namespace }) := by
  refine ⟨fun r g ms hT hG hParse hms => ?_, ⟨rfl, by decide, rfl⟩,
    fun r g ms hT hG hParse hms hRe hMatchers hOp => ?_⟩
  · have hBranch : setExprBranch r = .error "日志模板时长不能超过10m" := by
      unfold setExprBranch
      rw [if_neg (by rw [hT]; decide), if_pos hT]
      split
      · next heq => rw [hG] at heq; cases heq
      · next g1 heq =>
        rw [hG] at heq
        injection heq with hg
        subst hg
        simp only [hParse]
        rw [if_pos hms]
    unfold setExpr
    rw [hBranch]
    rfl
  · have hBranch : setExprBranch r = .ok { r with Expr := logqlExpr g r.Namespace } := by
      unfold setExprBranch
      rw [if_neg (by rw [hT]; decide), if_pos hT]
      split
      · next heq => rw [hG] at heq; cases heq
      · next g1 heq =>
        rw [hG] at heq
        injection heq with hg
        subst hg
        simp only [hParse]
        rw [if_neg (by omega)]
        rw [if_neg (by simp [regexpCompiles])]
        rw [if_neg (by simp only [List.isEmpty_iff]; exact hMatchers)]
    unfold setExpr
    rw [hBranch]
    unfold setExprPost
    dsimp only
    rw [if_neg (by simp [hOp])]
    by_cases hScope : r.Namespace ≠ "" ∧ r.Namespace ≠ GlobalAlertNamespace
    · rw [if_pos hScope]
      have hc : (strContains (logqlExpr g r.Namespace) (nsReStr r.Namespace) ||
          strContains (logqlExpr g r.Namespace) (nsEqStr r.Namespace)) = true := by
        rw [logqlExpr_contains_ns]
        simp
      rw [if_pos hc]
    · rw [if_neg hScope]

/-- A ≤10m log rule whose match pattern contains `>` (a valid regular
expression). -/
def opPatternLogRule : AlertRule :=
  { Namespace := "team-a", Name := "lg", AlertType := AlertTypeLogging,
    LogqlGenerator := some { Duration := "10m", Match := "err>1",
                             LabelMatchers := [{ Name := "job", Value := "x" }] } }

/-- C9 counterexample: a log rule with duration exactly "10m", a compiling
match pattern and a non-empty matcher set is still rejected by `setExpr`,
because the pattern "err>1" puts a raw comparison operator into the built
expression — falsifying the claim that validation always succeeds for
durations of 10 minutes and below under those two conditions alone. -/
theorem setExpr_log_op_pattern_cx :
    parseDuration "10m" = some 600000 ∧
    regexpCompiles "err>1" = true ∧
    (opPatternLogRule.LogqlGenerator.getD default).LabelMatchers ≠ [] ∧
    exceptIsOk (setExpr opPatternLogRule) = false := by
  refine ⟨rfl, rfl, by decide, rfl⟩

/-- A well-formed log rule with duration "10m" and an operator-free
pattern. -/
def cleanLogRule : AlertRule :=
  { Namespace := "team-a", Name := "lg", AlertType := AlertTypeLogging,
    LogqlGenerator := some { Duration := "10m", Match := "err",
                             LabelMatchers := [{ Name := "job", Value := "x" }] } }

/-- The same rule with an "11m" lookback. -/
def longLogRule : AlertRule :=
  { Namespace := "team-a", Name := "lg", AlertType := AlertTypeLogging,
    LogqlGenerator := some { Duration := "11m", Match := "err",
                             LabelMatchers := [{ Name := "job", Value := "x" }] } }

/-- C9 witness: the failure conjunct at "11m" and the success conjunct at
"10m". -/
theorem setExpr_log_duration_bound_witness :
    exceptIsOk (setExpr longLogRule) = false ∧
    setExpr cleanLogRule = .ok { cleanLogRule with
      Expr := logqlExpr { Duration := "10m", Match := "err",
                          LabelMatchers := [{ Name := "job", Value := "x" }] } "team-a" } :=
  ⟨setExpr_log_duration_bound.1 longLogRule _ 660000 rfl rfl rfl (by decide),
   setExpr_log_duration_bound.2.2 cleanLogRule _ 600000 rfl rfl rfl (by decide) rfl
     (by decide) (by decide)⟩

/- ===== decimal codec round-trip (model of Go strconv) ===== -/

/-- Every digit of a base-10 expansion maps to a digit character and back
to itself. -/
theorem charVal_digitChar {d : Nat} (h : d < 10) :
    charVal (digitChar d) = d ∧ (digitChar d).isDigit = true := by
  interval_cases d <;> exact ⟨rfl, rfl⟩

/-- Parsing inverts rendering on natural numbers. -/
theorem parseNat_natStr (n : Nat) : parseNat (natStr n) = some n := by
  by_cases h0 : n = 0
  · subst h0; decide
  · have hdigs : ∀ d ∈ Nat.digits 10 n, d < 10 :=
      fun d hd => Nat.digits_lt_base (by norm_num) hd
    have hne : Nat.digits 10 n ≠ [] := Nat.digits_ne_nil_iff_ne_zero.mpr h0
    unfold natStr
    rw [if_neg h0]
    unfold parseNat
    rw [if_pos ?hcond]
    case hcond =>
      refine ⟨?_, ?_⟩
      · show ((Nat.digits 10 n).reverse.map digitChar) ≠ []
        intro hL
        apply hne
        have hlen := congrArg List.length hL
        simp only [List.length_map, List.length_reverse, List.length_nil] at hlen
        exact List.length_eq_zero.mp hlen
      · show (((Nat.digits 10 n).reverse.map digitChar).all Char.isDigit) = true
        rw [List.all_eq_true]
        intro c hc
        obtain ⟨d, hd, hcd⟩ := List.mem_map.mp hc
        rw [← hcd]
        exact (charVal_digitChar (hdigs d (List.mem_reverse.mp hd))).2
    · congr 1
      show Nat.ofDigits 10 ((((Nat.digits 10 n).reverse.map digitChar).map charVal).reverse) = n
      have hmap : ((Nat.digits 10 n).reverse.map digitChar).map charVal =
          (Nat.digits 10 n).reverse := by
        rw [List.map_map]
        have hcongr : ∀ d ∈ (Nat.digits 10 n).reverse, (charVal ∘ digitChar) d = d :=
          fun d hd => (charVal_digitChar (hdigs d (List.mem_reverse.mp hd))).1
        calc ((Nat.digits 10 n).reverse).map (charVal ∘ digitChar)
            = ((Nat.digits 10 n).reverse).map id := List.map_congr_left hcongr
          _ = (Nat.digits 10 n).reverse := List.map_id _
      rw [hmap, List.reverse_reverse, Nat.ofDigits_digits]

/-- The rendering of a natural number never starts with a minus sign. -/
theorem natStr_no_minus (n : Nat) : isPrefixB ['-'] (natStr n).data = false := by
  by_cases h0 : n = 0
  · subst h0; decide
  · have hdigs : ∀ d ∈ Nat.digits 10 n, d < 10 :=
      fun d hd => Nat.digits_lt_base (by norm_num) hd
    unfold natStr
    rw [if_neg h0]
    show isPrefixB ['-'] ((Nat.digits 10 n).reverse.map digitChar) = false
    rcases hL : (Nat.digits 10 n).reverse.map digitChar with _ | ⟨c, cs⟩
    · rfl
    · unfold isPrefixB
      rw [if_neg ?hne]
      case hne =>
        intro he
        have hc : c.isDigit = true := by
          have hmem : c ∈ (Nat.digits 10 n).reverse.map digitChar := by
            rw [hL]; exact List.mem_cons_self _ _
          obtain ⟨d, hd, hcd⟩ := List.mem_map.mp hmem
          rw [← hcd]
          exact (charVal_digitChar (hdigs d (List.mem_reverse.mp hd))).2
        rw [← he] at hc
        exact absurd hc (by decide)

/-- Parsing inverts rendering on integers. -/
theorem parseInt_formatInt (i : Int) : parseInt (formatInt i) = some i := by
  unfold formatInt parseInt
  by_cases hneg : i < 0
  · rw [if_pos hneg]
    have hdata : ("-" ++ natStr i.natAbs).data = '-' :: (natStr i.natAbs).data := by
      rw [String.data_append]; rfl
    rw [if_pos (by rw [hdata]; unfold isPrefixB; rw [if_pos rfl]; rfl)]
    rw [hdata]
    have hdrop : ('-' :: (natStr i.natAbs).data).drop 1 = (natStr i.natAbs).data := rfl
    rw [hdrop]
    have hmk : ({ data := (natStr i.natAbs).data } : String) = natStr i.natAbs := rfl
    rw [hmk, parseNat_natStr]
    simp only [Option.map_some']
    congr 1
    rw [Int.ofNat_eq_natCast]
    omega
  · rw [if_neg hneg]
    rw [if_neg (by rw [natStr_no_minus]; exact fun h => Bool.noConfusion h)]
    rw [parseNat_natStr]
    simp only [Option.map_some']
    congr 1
    rw [Int.ofNat_eq_natCast]
    omega

/-- `find?` ignores a filter that only removes non-matching elements. -/
theorem find?_filter_of_imp {α} (p q : α → Bool) (l : List α)
    (h : ∀ x, p x = true → q x = true) :
    (l.filter q).find? p = l.find? p := by
  induction l with
  | nil => rfl
  | cons a l ih =>
    by_cases hq : q a = true
    · rw [List.filter_cons_of_pos hq]
      by_cases hp : p a = true
      · rw [List.find?_cons_of_pos _ hp, List.find?_cons_of_pos _ hp]
      · rw [List.find?_cons_of_neg _ (by simp [hp]), List.find?_cons_of_neg _ (by simp [hp])]
        exact ih
    · rw [List.filter_cons_of_neg (by simpa using hq)]
      rw [List.find?_cons_of_neg _ (by intro hpa; exact hq (h a hpa))]
      exact ih

/-- Reading the key just set yields the set value. -/
theorem headerGet_set_same (hs : List (String × String)) (k v : String) :
    headerGet (headerSet hs k v) k = v := by
  unfold headerGet headerSet
  rw [List.find?_cons_of_pos _ (by simp)]
  rfl

/-- Setting one key does not disturb reads of a different key. -/
theorem headerGet_set_other (hs : List (String × String)) (k k1 v : String)
    (hk : k1 ≠ k) :
    headerGet (headerSet hs k v) k1 = headerGet hs k1 := by
  unfold headerGet headerSet
  rw [List.find?_cons_of_neg _ (by simp [Ne.symm hk])]
  rw [find?_filter_of_imp _ _ hs ?himp]
  case himp =>
    intro x hx
    simp only [beq_iff_eq] at hx
    simp [bne_iff_ne, hx, hk]

/-- C10: signing a request with an empty prefix and validating it with the
same signer succeeds whenever the validation-time clock is within the
signer's `Duration` tolerance of the signing time — the signer never
touches the path, the time header round-trips through the decimal codec,
and the recomputed digest equals the stored one. -/
theorem sign_validate_roundtrip (hash : String → String) (s : Signer) (req : Request)
    (signT validT : Int)
    (h1 : signT ≤ validT + s.Duration) (h2 : validT - s.Duration ≤ signT) :
    Signer.Validate hash s (Signer.Sign hash s req "" signT) validT = .ok () := by
  unfold Signer.Sign Signer.Validate
  dsimp only
  by_cases hW : Signer.IsWhiteList s req.Path = true
  · rw [if_pos hW]
  · rw [if_neg hW]
    rw [headerGet_set_same]
    rw [headerGet_set_other _ _ _ _ (by decide), headerGet_set_same]
    have hTrim : trimLeading req.Path "" = req.Path := rfl
    rw [hTrim]
    rw [parseInt_formatInt]
    dsimp only
    rw [if_neg (by omega)]
    rw [if_neg (fun h => h rfl)]

/-- A concrete signer with the source's 60-second tolerance. -/
def sampleSigner : Signer := { Token := "fedf4ca02b9235a616ccb11d9540bb42", Duration := 60 }

/-- A concrete request. -/
def sampleReq : Request := { Path := "/v1/health" }

/-- C10 witness: the round trip at a concrete hash function, signer,
request and clock pair 30 seconds apart. -/
theorem sign_validate_roundtrip_witness :
    Signer.Validate id sampleSigner
      (Signer.Sign id sampleSigner sampleReq "" 1700000000) 1700000030 = .ok () :=
  sign_validate_roundtrip id sampleSigner sampleReq 1700000000 1700000030
    (by decide) (by decide)

/-- A rule with two severity levels and one inhibition label. -/
def twoLevelRule : AlertRule :=
  { Namespace := "team-a", Name := "high-cpu",
    AlertLevels := [{ CompareOp := ">", CompareValue := "80", Severity := "critical" },
                    { CompareOp := ">", CompareValue := "60", Severity := "warning" }],
    InhibitLabels := ["pod"] }

/-- C5 witness: the inhibition conjuncts at a concrete two-level rule. -/
theorem syncAlertmanagerConfig_inhibition_witness :
    (syncAlertmanagerConfigSpec twoLevelRule).InhibitRules = [inhibitRuleOf twoLevelRule] ∧
    (syncAlertmanagerConfigSpec twoLevelRule).InhibitRules.length = 1 :=
  ⟨(syncAlertmanagerConfig_inhibition.2.1 twoLevelRule (by decide)).1,
   syncAlertmanagerConfig_inhibition.2.2 twoLevelRule (by decide) (by decide)⟩
